import Mathlib

/-!
Verification of the request routing and response orchestration pipeline of the
llm-recommender backend.  The definitions below are a shallow embedding of
`backend/main.py` and `backend/inference.py`: pure string manipulation is
translated directly, network calls (Ollama inference, web search) become
explicit oracle functions, and Python exceptions become `Except` values.
Python floats in the scoring table all have exactly one decimal digit, so they
are represented as natural numbers scaled by 10 (9.8 becomes 98).
-/

/-! ## Python string primitives -/

/-- Python `str.lower()` (ASCII case folding as used by the repository's data). -/
def pyLower (s : String) : String :=
  String.mk (s.data.map Char.toLower)

/-- Python `str.strip()`: remove leading and trailing whitespace. -/
def pyStrip (s : String) : String :=
  String.mk (((s.data.dropWhile Char.isWhitespace).reverse.dropWhile Char.isWhitespace).reverse)

/-- Check that the first list is an initial segment of the second. -/
def hasPrefixChars : List Char → List Char → Bool
  | [], _ => true
  | _ :: _, [] => false
  | a :: as, b :: bs => a == b && hasPrefixChars as bs

/-- Check that `needle` occurs contiguously inside `hay`. -/
def hasSubChars (needle : List Char) : List Char → Bool
  | [] => needle.isEmpty
  | c :: rest => hasPrefixChars needle (c :: rest) || hasSubChars needle rest

/-- Python `needle in hay` on strings: contiguous substring test. -/
def containsStr (hay needle : String) : Bool :=
  hasSubChars needle.data hay.data

/-- Python `any(n in hay for n in needles)`. -/
def containsAny (hay : String) (needles : List String) : Bool :=
  needles.any (fun n => containsStr hay n)

/-- Helper for `splitWords`; `acc` holds the current word reversed. -/
def splitWordsAux : List Char → List Char → List String
  | [], acc => if acc.isEmpty then [] else [String.mk acc.reverse]
  | ch :: rest, acc =>
    if ch.isWhitespace then
      if acc.isEmpty then splitWordsAux rest []
      else String.mk acc.reverse :: splitWordsAux rest []
    else splitWordsAux rest (ch :: acc)

/-- Python `str.split()`: split on whitespace runs, dropping empty pieces. -/
def splitWords (s : String) : List String :=
  splitWordsAux s.data []

/-- `prompt_lower = prompt.lower().strip()` computed by `chat_recommender`. -/
def promptLower (prompt : String) : String :=
  pyStrip (pyLower prompt)

/-! ## File extension extraction

`chat_recommender` saves an upload under `uploads/{uuid4()}_{filename}` and
takes `os.path.splitext(file_path)[1]`.  Since the directory and the uuid
prefix contain no dot, that extension is the suffix of the original filename
starting at its last dot (empty when the name has no dot). -/

/-- Scan the reversed character list; `acc` is the suffix seen so far. -/
def extOfAux : List Char → List Char → String
  | [], _ => ""
  | c :: rest, acc =>
    if c == '/' then ""
    else if c == '.' then String.mk ('.' :: acc)
    else extOfAux rest (c :: acc)

/-- Extension of an uploaded filename, as `os.path.splitext` yields it for the
stored upload path. -/
def extOf (name : String) : String :=
  extOfAux name.data.reverse []

/-! ## IntentRouter keyword sets (`main.py`) -/

def strongIndicators : List String :=
  ["recommend llm", "suggest llm", "best llm", "which llm", "recommend model",
   "suggest model", "best model", "which model", "llm for", "model for"]

def recommendationWords : List String :=
  ["recommend", "suggest", "best", "top", "good"]

def modelWords : List String :=
  ["llm", "model", "language model"]

def generalQuestionPhrases : List String :=
  ["what is llm", "what are llm", "explain llm", "define llm"]

/-- `is_llm_recommendation_request(prompt_lower)` from `main.py`. -/
def is_llm_recommendation_request (pl : String) : Bool :=
  if containsAny pl strongIndicators then true
  else if containsAny pl recommendationWords && containsAny pl modelWords then
    ! containsAny pl generalQuestionPhrases
  else false

def webSearchIndicators : List String :=
  ["current", "latest", "recent", "today", "now", "news", "update", "status", "trending"]

def complexIndicators : List String :=
  ["explain", "tell me about", "what is", "how does", "why does"]

/-- `should_use_web_search(prompt_lower)` from `main.py`. -/
def should_use_web_search (pl : String) : Bool :=
  if containsAny pl webSearchIndicators then true
  else if 4 < (splitWords pl).length && containsAny pl complexIndicators then true
  else false

def identityKeywords : List String := ["who are you", "what are you"]

def greetingKeywords : List String := ["hi", "hello", "hey"]

def thanksKeywords : List String := ["thank", "thanks"]

def goodbyeKeywords : List String := ["bye", "goodbye"]

def educationPhrases : List String := ["what is llm", "what is ai"]

/-- The sub-branch of `handle_natural_conversation` a turn falls into; the
constructors appear in the order the source tests them. -/
inductive ConvBranch where
  | identityReply
  | greeting
  | thanks
  | goodbye
  | education
  | webSearch
  | directChat
deriving DecidableEq

/-- The if/elif chain of `handle_natural_conversation` in `main.py`. -/
def convBranch (pl : String) : ConvBranch :=
  if containsAny pl identityKeywords then ConvBranch.identityReply
  else if containsAny pl greetingKeywords then ConvBranch.greeting
  else if containsAny pl thanksKeywords then ConvBranch.thanks
  else if containsAny pl goodbyeKeywords then ConvBranch.goodbye
  else if containsAny pl educationPhrases then ConvBranch.education
  else if should_use_web_search pl then ConvBranch.webSearch
  else ConvBranch.directChat

def identityReplyMsg : String :=
  "Hello! I'm an AI Assistant from Caze Labs. I'm designed to be helpful, conversational, and intelligent. I can help you with:\n• **Finding AI Models**\n• **Document Analysis**\n• **Image Processing**\n• **General Questions**\nWhat would you like to explore?"

def greetingReplyMsg : String := "Hello! How can I help you today?"

def thanksReplyMsg : String := "You're very welcome! Is there anything else I can help with?"

def goodbyeReplyMsg : String := "Goodbye! Have a great day."

def llmEducationMsg : String :=
  "**LLM** stands for **Large Language Model** - these are AI systems trained on vast amounts of text data to understand and generate human-like text.\n**Key characteristics:**\n• **Large Scale**: Trained on billions of parameters and massive datasets\n• **Versatile**: Can handle multiple tasks like writing, coding, analysis, conversation\n• **Generative**: Create new content rather than just retrieving information\nWould you like me to recommend specific LLMs for particular use cases?"

def aiEducationMsg : String :=
  "**Artificial Intelligence (AI)** is technology that enables machines to simulate human intelligence.\n**Key AI capabilities**:\n• **Learning**: Improving performance through experience\n• **Reasoning**: Making logical connections and decisions\n• **Problem-solving**: Finding solutions to complex challenges\nI'm here to demonstrate AI in action! What would you like to explore?"

/-- `handle_ai_education_question(prompt)` from `main.py`; `ollama` is the
oracle standing for `get_ollama_response`. -/
def handle_ai_education_question (ollama : String → String) (prompt : String) : String :=
  let pl := pyLower prompt
  if containsStr pl "llm" then llmEducationMsg
  else if containsAny pl ["what is ai", "artificial intelligence", "how does ai work"] then
    aiEducationMsg
  else
    ollama ("Please explain this AI/technology concept in a conversational, educational way: " ++ prompt)

def enhancedPromptOf (prompt searchResult : String) : String :=
  "You are an intelligent AI assistant. A user asked: \"" ++ prompt ++
  "\"\nHere's information from a web search: " ++ searchResult ++
  "\nPlease provide a comprehensive, conversational, and helpful response using this information."

def conversationalPromptOf (prompt : String) : String :=
  "You are a helpful, intelligent AI assistant from Caze Labs.\nUser: " ++ prompt ++
  "\nRespond in a natural, conversational way."

/-- `handle_natural_conversation(prompt, prompt_lower)` from `main.py`, with
the inference and web-search network calls abstracted as oracles. -/
def handle_natural_conversation (ollama webOracle : String → String)
    (prompt pl : String) : String :=
  match convBranch pl with
  | ConvBranch.identityReply => identityReplyMsg
  | ConvBranch.greeting => greetingReplyMsg
  | ConvBranch.thanks => thanksReplyMsg
  | ConvBranch.goodbye => goodbyeReplyMsg
  | ConvBranch.education => handle_ai_education_question ollama prompt
  | ConvBranch.webSearch => ollama (enhancedPromptOf prompt (webOracle prompt))
  | ConvBranch.directChat => ollama (conversationalPromptOf prompt)

/-! ## Top-level routing in `chat_recommender` -/

def imageExts : List String := [".png", ".jpg", ".jpeg", ".gif", ".bmp", ".webp"]

/-- The processing branch `chat_recommender` dispatches a turn to. -/
inductive Branch where
  | imageAnalysis
  | documentAnalysis
  | recommendationSearch
  | naturalConversation
deriving DecidableEq

/-- The routing decision of `chat_recommender`: attachment tests first, then
the recommendation-intent test, else natural conversation. -/
def routeTurn (file : Option String) (prompt : String) : Branch :=
  match file with
  | some name =>
    if imageExts.contains (pyLower (extOf name)) then Branch.imageAnalysis
    else Branch.documentAnalysis
  | none =>
    if is_llm_recommendation_request (promptLower prompt) then Branch.recommendationSearch
    else Branch.naturalConversation

def genericApologyMsg : String :=
  "I encountered an error while processing your request. Please try again!"

def defaultHelpMsg : String :=
  "I'm here to help! Feel free to ask me anything."

/-- The failure boundary of `chat_recommender`: the dispatched strategy's
outcome (normal reply or raised exception) is resolved to the final reply.
An exception becomes the generic apology; an empty or whitespace-only reply
becomes the default help message. -/
def finalizeReply (dispatched : Except String String) : String :=
  let r := match dispatched with
    | Except.ok s => s
    | Except.error _ => genericApologyMsg
  if pyStrip r = "" then defaultHelpMsg else r

/-- One turn of `chat_recommender`, with each strategy's computation abstracted
as an oracle from the chosen branch to its outcome (`Except.error` models a
raised exception).  The user id only keys the transcript and cannot influence
the reply. -/
def chatReply (strategy : Branch → Except String String)
    (_userId : String) (file : Option String) (prompt : String) : String :=
  finalizeReply (strategy (routeTurn file prompt))

/-! ## InferenceClient: `get_ollama_response` (`main.py`)

The HTTP transport is abstracted as a function from the attempt index to
either a response body (`Except.ok`) or a raised `RequestException`
(`Except.error`).  A run records how many attempts were made, the total time
slept between attempts, and the returned reply string. -/

def degradationMsg : String :=
  "⚠️ I'm having trouble connecting to the AI model right now. Please try again in a moment."

def exhaustedMsg : String :=
  "⚠️ The AI model failed to respond after several attempts."

structure OllamaRun where
  attempts : Nat
  sleepTime : Nat
  reply : String

/-- The `for attempt in range(retries)` loop of `get_ollama_response`; `fuel`
is the number of attempts still allowed (initially `retries`), so the current
attempt is the last one exactly when `fuel = 1`, matching the source's
`attempt < retries - 1` test for sleeping versus giving up. -/
def ollamaGo (transport : Nat → Except String String) (delay : Nat) :
    Nat → Nat → OllamaRun
  | _, 0 => ⟨0, 0, exhaustedMsg⟩
  | attempt, fuel + 1 =>
    match transport attempt with
    | Except.ok resp => ⟨1, 0, pyStrip resp⟩
    | Except.error _ =>
      match fuel with
      | 0 => ⟨1, 0, degradationMsg⟩
      | f + 1 =>
        let r := ollamaGo transport delay (attempt + 1) (f + 1)
        ⟨r.attempts + 1, r.sleepTime + delay, r.reply⟩

/-- `get_ollama_response(prompt, ..., retries, delay)` with the transport
abstracted; the reply of the run is what the function returns. -/
def get_ollama_response_run (transport : Nat → Except String String)
    (retries delay : Nat) : OllamaRun :=
  ollamaGo transport delay 0 retries

/-! ## CatalogSearch: `search_local_models` (`main.py`)

`llm_df` is the catalog table loaded from `llm_data.csv`; a row keeps the CSV
columns as strings.  The pandas regex `(?i)(kw1|kw2|...)` built from the query
keywords is modelled as "some keyword occurs case-insensitively in the row's
`use_case_tags`"; the empty keyword list yields the empty pattern, which
matches every row. -/

structure CatalogRow where
  model_name : String
  use_case_tags : String
  size_gb : String
  link : String
  source : String
  notes : String
deriving DecidableEq

def unavailableMsg : String :=
  "I cannot search for models because my database file (llm_data.csv) is missing."

def noMatchMsg : String :=
  "I searched my database but couldn't find models matching your specific criteria. Try using keywords like 'coding', 'chat', 'writing', or 'analysis' for better results."

/-- `keywords = [word for word in prompt.lower().split() if len(word) > 2]`. -/
def queryKeywords (prompt : String) : List String :=
  (splitWords (pyLower prompt)).filter (fun w => 2 < w.length)

/-- Whether a catalog row is selected by `str.contains` with the keyword
alternation pattern. -/
def rowMatches (kws : List String) (r : CatalogRow) : Bool :=
  if kws.isEmpty then true
  else kws.any (fun k => containsStr (pyLower r.use_case_tags) k)

def formatModelRow (i : Nat) (r : CatalogRow) : String :=
  "### " ++ toString (i + 1) ++ ". **" ++ r.model_name ++ "**\n" ++
  "- **Primary Use Cases:** " ++ r.use_case_tags ++ "\n" ++
  "- **Size (GB):** " ++ r.size_gb ++ "\n" ++
  "- **Link:** <a href=\"" ++ r.link ++ "\" target=\"_blank\" style=\"color: #60a5fa;\">" ++
  r.source ++ " Page</a>\n" ++
  "- **Notes:** " ++ r.notes ++ "\n\n"

def buildRecsReply (rows : List CatalogRow) : String :=
  "Based on your request, here are my top LLM recommendations:\n\n" ++
  String.join (rows.enum.map (fun p => formatModelRow p.1 p.2)) ++
  "Need more specific recommendations? Feel free to tell me more about your exact use case!"

/-- `search_local_models(prompt)` over an explicit catalog value. -/
def search_local_models (llm_df : List CatalogRow) (prompt : String) : String :=
  if llm_df.isEmpty then unavailableMsg
  else
    let matched := llm_df.filter (rowMatches (queryKeywords prompt))
    if matched.isEmpty then noMatchMsg
    else buildRecsReply (matched.take 3)

/-- The ordered list of catalog rows a search presents (`matched.head(3)`). -/
def searchResults (llm_df : List CatalogRow) (prompt : String) : List CatalogRow :=
  (llm_df.filter (rowMatches (queryKeywords prompt))).take 3

/-- The module-level load of `llm_data.csv`: on `FileNotFoundError` the code
stores an empty `DataFrame`, so the search path only ever sees the row list. -/
def loadCatalog (loaded : Option (List CatalogRow)) : List CatalogRow :=
  loaded.getD []

/-- Searching through the load boundary: `none` is a failed load. -/
def searchWithLoad (loaded : Option (List CatalogRow)) (prompt : String) : String :=
  search_local_models (loadCatalog loaded) prompt

def sampleCatalog : List CatalogRow :=
  [⟨"llama-2-7b", "chat, general", "3.8", "https://huggingface.co/meta-llama", "Meta", "Good general model"⟩,
   ⟨"codellama-13b", "coding, completion", "7.4", "https://huggingface.co/codellama", "Meta", "Tuned for code"⟩,
   ⟨"mistral-7b", "chat, reasoning", "4.1", "https://huggingface.co/mistralai", "Mistral", "Strong small model"⟩]

/-! ## RecommendationEngine: `LLMRecommenderEngine` (`inference.py`) -/

structure ModelEntry where
  score10 : Nat
  cost : String
  license : String
  source : String
deriving DecidableEq

/-- `model_database['text_generation']` (scores scaled by 10). -/
def text_generation_models : List (String × ModelEntry) :=
  [("gpt-4o", ⟨95, "high", "commercial", "OpenAI"⟩),
   ("claude-3-sonnet", ⟨92, "high", "commercial", "Anthropic"⟩),
   ("llama-3-70b", ⟨88, "medium", "open", "Meta"⟩),
   ("mistral-7b", ⟨85, "low", "apache-2.0", "Mistral"⟩)]

/-- `model_database['code_generation']`. -/
def code_generation_models : List (String × ModelEntry) :=
  [("claude-3-sonnet", ⟨98, "high", "commercial", "Anthropic"⟩),
   ("gpt-4o", ⟨93, "high", "commercial", "OpenAI"⟩),
   ("codellama-34b", ⟨89, "medium", "open", "Meta"⟩)]

/-- `model_database['question_answering']`. -/
def question_answering_models : List (String × ModelEntry) :=
  [("gpt-4o", ⟨94, "high", "commercial", "OpenAI"⟩),
   ("claude-3-haiku", ⟨91, "medium", "commercial", "Anthropic"⟩),
   ("gemma-7b", ⟨83, "low", "apache-2.0", "Google"⟩)]

/-- `load_model_database`, in the source's insertion order. -/
def model_database : List (String × List (String × ModelEntry)) :=
  [("text_generation", text_generation_models),
   ("code_generation", code_generation_models),
   ("question_answering", question_answering_models)]

/-- `self.model_database.get(use_case, self.model_database['text_generation'])`. -/
def dbGet (uc : String) : List (String × ModelEntry) :=
  match model_database.find? (fun p => p.1 == uc) with
  | some p => p.2
  | none => text_generation_models

def text_generation_keywords : List String :=
  ["generate", "write", "create", "content", "article", "story"]

def code_generation_keywords : List String :=
  ["code", "program", "develop", "script", "function", "debug"]

def question_answering_keywords : List String :=
  ["answer", "explain", "help", "question", "support", "faq"]

def summarization_keywords : List String :=
  ["summarize", "summary", "brief", "overview", "digest"]

def translation_keywords : List String :=
  ["translate", "language", "convert", "localize"]

/-- The `use_case_keywords` dict of `analyze_use_case`, in insertion order. -/
def use_case_keywords : List (String × List String) :=
  [("text_generation", text_generation_keywords),
   ("code_generation", code_generation_keywords),
   ("question_answering", question_answering_keywords),
   ("summarization", summarization_keywords),
   ("translation", translation_keywords)]

/-- `sum(1 for keyword in keywords if keyword in user_lower)`. -/
def countKeywords (kws : List String) (textLower : String) : Nat :=
  (kws.filter (fun k => containsStr textLower k)).length

/-- A category's keyword count against an input (lowering included). -/
def catCount (kws : List String) (s : String) : Nat :=
  countKeywords kws (pyLower s)

/-- Python `max(scores, key=scores.get)`: the first pair (in iteration order)
whose value attains the maximum — a later pair replaces the best only when
strictly greater. -/
def argmaxFirst (h : String × Nat) (t : List (String × Nat)) : String × Nat :=
  t.foldl (fun best x => if best.2 < x.2 then x else best) h

/-- `analyze_use_case(user_input)` from `inference.py`. -/
def analyze_use_case (user_input : String) : String :=
  let ul := pyLower user_input
  let scores := use_case_keywords.map (fun ck => (ck.1, countKeywords ck.2 ul))
  match scores with
  | [] => "text_generation"
  | h :: t =>
    if 0 < (scores.map Prod.snd).foldl Nat.max 0 then (argmaxFirst h t).1
    else "text_generation"

/-- Render a scaled score the way Python prints the float (one decimal). -/
def showScore (n : Nat) : String :=
  toString (n / 10) ++ "." ++ toString (n % 10)

/-- `generate_reasoning(model_name, details, use_case)` from `inference.py`. -/
def generate_reasoning (d : ModelEntry) (uc : String) : String :=
  let base :=
    if uc = "text_generation" then
      "Recommended for " ++ uc ++ " due to strong performance (score: " ++
        showScore d.score10 ++ "/10) and " ++ d.license ++ " license"
    else if uc = "code_generation" then
      "Excellent for " ++ uc ++ " with high accuracy (score: " ++
        showScore d.score10 ++ "/10) and good documentation"
    else if uc = "question_answering" then
      "Optimal for " ++ uc ++ " with reliable responses (score: " ++
        showScore d.score10 ++ "/10) and cost-effective pricing"
    else
      "Good fit for " ++ uc ++ " with score " ++ showScore d.score10 ++ "/10"
  let costReason :=
    if d.cost = "low" then "Budget-friendly option"
    else if d.cost = "medium" then "Balanced cost-performance ratio"
    else if d.cost = "high" then "Premium option with advanced features"
    else ""
  base ++ ". " ++ costReason ++ ". Source: " ++ d.source

structure ModelLinks where
  docLink : String
  huggingface : String
  pricing : String
deriving DecidableEq

/-- `generate_links(model_name, source)` from `inference.py`. -/
def generate_links (model_name source : String) : ModelLinks :=
  let doc :=
    if source = "OpenAI" then "https://platform.openai.com/docs/models/" ++ model_name
    else if source = "Anthropic" then "https://docs.anthropic.com/claude/reference/" ++ model_name
    else if source = "Meta" then "https://huggingface.co/meta-llama/" ++ model_name
    else if source = "Mistral" then "https://huggingface.co/mistralai/" ++ model_name
    else if source = "Google" then "https://huggingface.co/google/" ++ model_name
    else "https://huggingface.co/models?search=" ++ model_name
  { docLink := doc,
    huggingface := "https://huggingface.co/models?search=" ++ model_name,
    pricing :=
      if source = "OpenAI" || source = "Anthropic" then
        "https://" ++ pyLower source ++ ".com/pricing"
      else "https://huggingface.co/pricing" }

structure Recommendation where
  name : String
  score10 : Nat
  cost : String
  license : String
  source : String
  use_case : String
  reasoning : String
  links : ModelLinks
deriving DecidableEq

/-- Stable descending insertion by score, matching Python's stable
`sorted(..., key=score, reverse=True)`: an element moves ahead only of
strictly smaller scores. -/
def insertDesc (x : String × ModelEntry) :
    List (String × ModelEntry) → List (String × ModelEntry)
  | [] => [x]
  | y :: ys => if y.2.score10 < x.2.score10 then x :: y :: ys else y :: insertDesc x ys

def sortDesc : List (String × ModelEntry) → List (String × ModelEntry)
  | [] => []
  | x :: xs => insertDesc x (sortDesc xs)

/-- The body of `recommend_models` once the use case is fixed. -/
def recommend_for_category (uc : String) : List Recommendation :=
  ((sortDesc (dbGet uc)).take 3).map (fun nd =>
    { name := nd.1
      score10 := nd.2.score10
      cost := nd.2.cost
      license := nd.2.license
      source := nd.2.source
      use_case := uc
      reasoning := generate_reasoning nd.2 uc
      links := generate_links nd.1 nd.2.source })

/-- `recommend_models(user_input)` from `inference.py`. -/
def recommend_models (user_input : String) : List Recommendation :=
  recommend_for_category (analyze_use_case user_input)

/-- The decision of `analyze_use_case` written out over the five keyword
counts of the concrete category table, in the table's iteration order; this
is definitionally what `analyze_use_case` computes. -/
def analyzeCore (a b c d e : Nat) : String :=
  let s1 := if a < b then ("code_generation", b) else ("text_generation", a)
  let s2 := if s1.2 < c then ("question_answering", c) else s1
  let s3 := if s2.2 < d then ("summarization", d) else s2
  let s4 := if s3.2 < e then ("translation", e) else s3
  if 0 < Nat.max (Nat.max (Nat.max (Nat.max (Nat.max 0 a) b) c) d) e then s4.1
  else "text_generation"

/-! ## Helper lemmas -/

theorem pyStrip_genericApology_ne : pyStrip genericApologyMsg ≠ "" := by decide

theorem pyStrip_defaultHelp_ne : pyStrip defaultHelpMsg ≠ "" := by decide

theorem ollamaGo_all_fail (err : Nat → String) (delay : Nat) :
    ∀ fuel, 1 ≤ fuel → ∀ attempt,
      ollamaGo (fun i => Except.error (err i)) delay attempt fuel =
        ⟨fuel, (fuel - 1) * delay, degradationMsg⟩ := by
  intro fuel
  induction fuel with
  | zero => intro h; omega
  | succ f ih =>
    intro _ attempt
    cases f with
    | zero => simp [ollamaGo]
    | succ g =>
      have hr := ih (by omega) (attempt + 1)
      simp only [ollamaGo, hr, OllamaRun.mk.injEq, Nat.add_sub_cancel]
      refine ⟨trivial, ?_, trivial⟩
      ring

theorem analyze_eq_core (s : String) :
    analyze_use_case s =
      analyzeCore (catCount text_generation_keywords s)
        (catCount code_generation_keywords s)
        (catCount question_answering_keywords s)
        (catCount summarization_keywords s)
        (catCount translation_keywords s) := rfl

set_option maxHeartbeats 1000000 in
theorem analyzeCore_first_max (a b c d e : Nat) :
    (b ≤ a → c ≤ a → d ≤ a → e ≤ a → analyzeCore a b c d e = "text_generation") ∧
    (a < b → c ≤ b → d ≤ b → e ≤ b → analyzeCore a b c d e = "code_generation") ∧
    (a < c → b < c → d ≤ c → e ≤ c → analyzeCore a b c d e = "question_answering") ∧
    (a < d → b < d → c < d → e ≤ d → analyzeCore a b c d e = "summarization") ∧
    (a < e → b < e → c < e → d < e → analyzeCore a b c d e = "translation") := by
  simp only [analyzeCore]
  split_ifs <;>
    refine ⟨?_, ?_, ?_, ?_, ?_⟩ <;> intros <;> simp_all <;> omega

theorem finalizeReply_error (e : String) :
    finalizeReply (Except.error e) = genericApologyMsg := by
  simp [finalizeReply, pyStrip_genericApology_ne]

theorem finalizeReply_ok_blank (s : String) (hs : pyStrip s = "") :
    finalizeReply (Except.ok s) = defaultHelpMsg := by
  simp [finalizeReply, hs]

theorem finalizeReply_ok_nonblank (s : String) (hs : ¬ pyStrip s = "") :
    finalizeReply (Except.ok s) = s := by
  simp [finalizeReply, hs]

theorem finalizeReply_nonblank (d : Except String String) :
    pyStrip (finalizeReply d) ≠ "" := by
  cases d with
  | error e => rw [finalizeReply_error]; exact pyStrip_genericApology_ne
  | ok s =>
    by_cases hs : pyStrip s = ""
    · rw [finalizeReply_ok_blank s hs]; exact pyStrip_defaultHelp_ne
    · rw [finalizeReply_ok_nonblank s hs]; exact hs

/-! ## C1 — the orchestrator is the failure boundary of the turn -/

/-- C1: For every turn (any user id, any text, any optional attachment) and
any outcome of the dispatched strategy, `chat_recommender` produces exactly
one reply whose stripped text is non-empty: a raised exception is replaced by
the generic apology reply, and an empty or whitespace-only dispatched reply is
replaced by the default "I'm here to help" message. -/
theorem chat_reply_failure_boundary (strategy : Branch → Except String String)
    (userId : String) (file : Option String) (prompt : String) :
    pyStrip (chatReply strategy userId file prompt) ≠ "" ∧
    (∀ e, strategy (routeTurn file prompt) = Except.error e →
      chatReply strategy userId file prompt = genericApologyMsg) ∧
    (∀ s, strategy (routeTurn file prompt) = Except.ok s → pyStrip s = "" →
      chatReply strategy userId file prompt = defaultHelpMsg) := by
  unfold chatReply
  refine ⟨finalizeReply_nonblank _, fun e he => ?_, fun s hs h => ?_⟩
  · rw [he, finalizeReply_error]
  · rw [hs, finalizeReply_ok_blank s h]

/-- Witness for C1 at concrete inputs: a raising strategy yields the apology,
a whitespace-only reply yields the default message, and in both cases the
final reply is not whitespace-only. -/
theorem chat_reply_failure_boundary_witness :
    chatReply (fun _ => Except.error "boom") "user1" none "hello" = genericApologyMsg ∧
    chatReply (fun _ => Except.ok "   ") "user1" none "hello" = defaultHelpMsg ∧
    pyStrip (chatReply (fun _ => Except.error "boom") "user1" none "hello") ≠ "" :=
  ⟨(chat_reply_failure_boundary (fun _ => Except.error "boom") "user1" none "hello").2.1
      "boom" rfl,
   (chat_reply_failure_boundary (fun _ => Except.ok "   ") "user1" none "hello").2.2
      "   " rfl (by decide),
   (chat_reply_failure_boundary (fun _ => Except.error "boom") "user1" none "hello").1⟩

/-! ## C2 — the inference retry loop -/

/-- C2: For every configured attempt count `n ≥ 1` and every always-failing
transport, `get_ollama_response` performs exactly `n` attempts, sleeps the
fixed delay between consecutive attempts (`n - 1` sleeps in total), and
returns the fixed degradation string; the transport error never escapes. -/
theorem ollama_retries_exhausted (n delay : Nat) (err : Nat → String) (h : 1 ≤ n) :
    get_ollama_response_run (fun i => Except.error (err i)) n delay =
      { attempts := n, sleepTime := (n - 1) * delay, reply := degradationMsg } :=
  ollamaGo_all_fail err delay n h 0

/-- Witness for C2 with the source's default configuration
(`retries = 2`, `delay = 3`). -/
theorem ollama_retries_exhausted_witness :
    get_ollama_response_run (fun _ => Except.error "connection refused") 2 3 =
      { attempts := 2, sleepTime := 3, reply := degradationMsg } := by
  simpa using ollama_retries_exhausted 2 3 (fun _ => "connection refused") (by decide)

/-! ## C3 — use-case classification tie-break -/

/-- C3 counterexample: on "answer code" the categories `code_generation` and
`question_answering` tie for the highest keyword count, yet the classifier
returns `code_generation`, not the claimed `text_generation`. -/
theorem analyze_use_case_tie_cex :
    catCount code_generation_keywords "answer code" =
      catCount question_answering_keywords "answer code" ∧
    0 < catCount code_generation_keywords "answer code" ∧
    catCount text_generation_keywords "answer code" = 0 ∧
    catCount summarization_keywords "answer code" = 0 ∧
    catCount translation_keywords "answer code" = 0 ∧
    analyze_use_case "answer code" = "code_generation" ∧
    analyze_use_case "answer code" ≠ "text_generation" := by decide

/-- C3 amended: classification counts, per category, how many of that
category's keywords occur in the lowercased text and returns the earliest
category (in the fixed order text_generation, code_generation,
question_answering, summarization, translation) attaining the highest count;
when every count is zero it returns `text_generation`.  Ties therefore
resolve to the earliest tied category, which is `text_generation` only when
`text_generation` itself attains the maximum. -/
theorem analyze_use_case_first_max (s : String) :
    (catCount code_generation_keywords s ≤ catCount text_generation_keywords s →
     catCount question_answering_keywords s ≤ catCount text_generation_keywords s →
     catCount summarization_keywords s ≤ catCount text_generation_keywords s →
     catCount translation_keywords s ≤ catCount text_generation_keywords s →
     analyze_use_case s = "text_generation") ∧
    (catCount text_generation_keywords s < catCount code_generation_keywords s →
     catCount question_answering_keywords s ≤ catCount code_generation_keywords s →
     catCount summarization_keywords s ≤ catCount code_generation_keywords s →
     catCount translation_keywords s ≤ catCount code_generation_keywords s →
     analyze_use_case s = "code_generation") ∧
    (catCount text_generation_keywords s < catCount question_answering_keywords s →
     catCount code_generation_keywords s < catCount question_answering_keywords s →
     catCount summarization_keywords s ≤ catCount question_answering_keywords s →
     catCount translation_keywords s ≤ catCount question_answering_keywords s →
     analyze_use_case s = "question_answering") ∧
    (catCount text_generation_keywords s < catCount summarization_keywords s →
     catCount code_generation_keywords s < catCount summarization_keywords s →
     catCount question_answering_keywords s < catCount summarization_keywords s →
     catCount translation_keywords s ≤ catCount summarization_keywords s →
     analyze_use_case s = "summarization") ∧
    (catCount text_generation_keywords s < catCount translation_keywords s →
     catCount code_generation_keywords s < catCount translation_keywords s →
     catCount question_answering_keywords s < catCount translation_keywords s →
     catCount summarization_keywords s < catCount translation_keywords s →
     analyze_use_case s = "translation") := by
  rw [analyze_eq_core s]
  exact analyzeCore_first_max _ _ _ _ _

/-- Witness for C3's amended statement: "debug the function" scores 2 for
`code_generation` and 0 elsewhere, so classification returns it. -/
theorem analyze_use_case_first_max_witness :
    analyze_use_case "debug the function" = "code_generation" :=
  (analyze_use_case_first_max "debug the function").2.1
    (by decide) (by decide) (by decide) (by decide)

/-! ## C4 — order of the conversation sub-branches -/

/-- C4 counterexample: the attachment-free turn "hi what is llm" matches both
the definitional phrasing "what is llm" and the greeting keyword "hi", matches
no earlier rule, yet the code answers with the canned greeting reply, not the
education answer — the identity/greeting/thanks/farewell tests run first. -/
theorem routing_order_cex :
    routeTurn none "hi what is llm" = Branch.naturalConversation ∧
    containsAny (promptLower "hi what is llm") educationPhrases = true ∧
    containsAny (promptLower "hi what is llm") greetingKeywords = true ∧
    convBranch (promptLower "hi what is llm") = ConvBranch.greeting ∧
    handle_natural_conversation (fun _ => "") (fun _ => "")
      "hi what is llm" (promptLower "hi what is llm") = greetingReplyMsg ∧
    greetingReplyMsg ≠ llmEducationMsg := by decide

/-- C4 amended: the identity/greeting/thanks/farewell tests are checked
before the definitional/educational test, so every text matching one of those
canned keyword sets is routed to a canned-reply sub-branch — never to the
education answer (nor to web search or direct inference) — even when it also
matches a definitional phrasing. -/
theorem canned_reply_before_education (pl : String)
    (h : (containsAny pl identityKeywords || containsAny pl greetingKeywords ||
          containsAny pl thanksKeywords || containsAny pl goodbyeKeywords) = true) :
    convBranch pl ≠ ConvBranch.education ∧
    convBranch pl ≠ ConvBranch.webSearch ∧
    convBranch pl ≠ ConvBranch.directChat := by
  unfold convBranch
  cases h1 : containsAny pl identityKeywords <;>
    cases h2 : containsAny pl greetingKeywords <;>
      cases h3 : containsAny pl thanksKeywords <;>
        cases h4 : containsAny pl goodbyeKeywords <;>
          simp_all

/-- Witness for C4's amended statement at "thanks". -/
theorem canned_reply_before_education_witness :
    convBranch "thanks" ≠ ConvBranch.education ∧
    convBranch "thanks" ≠ ConvBranch.webSearch ∧
    convBranch "thanks" ≠ ConvBranch.directChat :=
  canned_reply_before_education "thanks" (by decide)

/-! ## C5 — the "recommend a model for coding" scenario -/

/-- C5 counterexample: Python's substring test finds no `code_generation`
keyword in "recommend a model for coding" ("coding" does not contain the
substring "code"), so every category scores 0, classification falls back to
`text_generation`, and the top recommendation is gpt-4o — not the claimed
`code_generation` with claude-3-sonnet (9.8) first. -/
theorem recommend_coding_cex :
    containsStr (pyLower "recommend a model for coding") "code" = false ∧
    analyze_use_case "recommend a model for coding" ≠ "code_generation" ∧
    ((recommend_models "recommend a model for coding").map
      (fun r => r.name)).head? ≠ some "claude-3-sonnet" := by decide

/-- C5 amended: on "recommend a model for coding" no category keyword occurs
in the text, so `recommend_models` classifies it as the `text_generation`
default and returns that category's top 3 entries sorted strictly by
descending score, with gpt-4o (9.5) first. -/
theorem recommend_coding_top3 :
    analyze_use_case "recommend a model for coding" = "text_generation" ∧
    (recommend_models "recommend a model for coding").map (fun r => r.name) =
      ["gpt-4o", "claude-3-sonnet", "llama-3-70b"] ∧
    (recommend_models "recommend a model for coding").map (fun r => r.score10) =
      [95, 92, 88] ∧
    List.Pairwise (fun x y => y < x)
      ((recommend_models "recommend a model for coding").map (fun r => r.score10)) := by
  decide

/-! ## C6 — strong indicators force RecommendationSearch -/

/-- C6: every attachment-free turn whose lowercased text contains a strong
multi-word recommendation indicator and matches no exclusion definitional
phrase is classified as the recommendation-search branch. -/
theorem strong_indicator_routes_to_recommendation (prompt : String)
    (hs : containsAny (promptLower prompt) strongIndicators = true)
    (_hx : containsAny (promptLower prompt) generalQuestionPhrases = false) :
    routeTurn none prompt = Branch.recommendationSearch := by
  simp [routeTurn, is_llm_recommendation_request, hs]

/-- Witness for C6 at "which llm is best for coding". -/
theorem strong_indicator_routes_to_recommendation_witness :
    routeTurn none "which llm is best for coding" = Branch.recommendationSearch :=
  strong_indicator_routes_to_recommendation "which llm is best for coding"
    (by decide) (by decide)

/-! ## C7 — attachment extension routing -/

/-- C7: a turn with an attachment whose (lowercased) extension is in the fixed
image set is routed to image analysis, and any other attachment to document
analysis, regardless of the turn's text. -/
theorem attachment_routing (name prompt : String) :
    (imageExts.contains (pyLower (extOf name)) = true →
      routeTurn (some name) prompt = Branch.imageAnalysis) ∧
    (imageExts.contains (pyLower (extOf name)) = false →
      routeTurn (some name) prompt = Branch.documentAnalysis) := by
  constructor <;> intro h
  · show (if imageExts.contains (pyLower (extOf name)) = true then Branch.imageAnalysis
      else Branch.documentAnalysis) = Branch.imageAnalysis
    rw [h]
    simp
  · show (if imageExts.contains (pyLower (extOf name)) = true then Branch.imageAnalysis
      else Branch.documentAnalysis) = Branch.documentAnalysis
    rw [h]
    simp

/-- Witness for C7: an image upload and a document upload. -/
theorem attachment_routing_witness :
    routeTurn (some "photo.PNG") "describe" = Branch.imageAnalysis ∧
    routeTurn (some "report.pdf") "summarize this" = Branch.documentAnalysis :=
  ⟨(attachment_routing "photo.PNG" "describe").1 (by decide),
   (attachment_routing "report.pdf" "summarize this").2 (by decide)⟩

/-! ## C8 — catalog search determinism, size bound, and row order -/

/-- C8: catalog search is deterministic — identical catalog and identical
query always yield the same ordered result list — the result holds at most 3
entries, and it is a sublist of the catalog, i.e. matching rows appear in the
catalog's original row order with no re-sorting. -/
theorem catalog_search_deterministic_top3 (c₁ c₂ : List CatalogRow) (q₁ q₂ : String)
    (hc : c₁ = c₂) (hq : q₁ = q₂) :
    searchResults c₁ q₁ = searchResults c₂ q₂ ∧
    (searchResults c₁ q₁).length ≤ 3 ∧
    List.Sublist (searchResults c₁ q₁) c₁ := by
  subst hc; subst hq
  refine ⟨rfl, ?_, ?_⟩
  · exact List.length_take_le 3 _
  · exact List.Sublist.trans (List.take_sublist _ _) (List.filter_sublist _)

/-- Witness for C8 on a concrete catalog and query. -/
theorem catalog_search_deterministic_top3_witness :
    searchResults sampleCatalog "coding chat" = searchResults sampleCatalog "coding chat" ∧
    (searchResults sampleCatalog "coding chat").length ≤ 3 ∧
    List.Sublist (searchResults sampleCatalog "coding chat") sampleCatalog :=
  catalog_search_deterministic_top3 sampleCatalog sampleCatalog "coding chat" "coding chat"
    rfl rfl

/-! ## C9 — the "catalog unavailable" reply -/

/-- C9 counterexample: the code tests `llm_df.empty`, not load success, so a
successfully loaded catalog with zero rows — which vacuously has no matching
rows — produces exactly the same reply as a failed load: the two outcomes are
not distinguishable, contradicting the claim's universally stated
distinguishability from "a loaded catalog with no matching rows". -/
theorem catalog_unavailable_cex :
    (∀ r ∈ ([] : List CatalogRow), rowMatches (queryKeywords "coding") r = false) ∧
    searchWithLoad (some []) "coding" = searchWithLoad none "coding" := by
  refine ⟨?_, rfl⟩
  intro r hr
  cases hr

/-- C9 amended: a failed load yields the fixed cannot-search reply for every
query, and it is distinct from the no-match reply a loaded catalog with at
least one row but no matching rows produces; a loaded but empty catalog,
however, is reported as unavailable too, since the code tests emptiness
rather than load success. -/
theorem catalog_unavailable_distinct (c : List CatalogRow) (q : String)
    (hne : c ≠ [])
    (hnomatch : c.filter (rowMatches (queryKeywords q)) = []) :
    searchWithLoad none q = unavailableMsg ∧
    search_local_models c q = noMatchMsg ∧
    noMatchMsg ≠ unavailableMsg := by
  refine ⟨rfl, ?_, by decide⟩
  have h1 : c.isEmpty = false := by
    cases c with
    | nil => exact absurd rfl hne
    | cons x xs => rfl
  simp [search_local_models, h1, hnomatch]

/-- Witness for C9's amended statement: a failed load versus a nonempty
catalog that matches nothing for the query "quantum". -/
theorem catalog_unavailable_distinct_witness :
    searchWithLoad none "quantum" = unavailableMsg ∧
    search_local_models sampleCatalog "quantum" = noMatchMsg ∧
    noMatchMsg ≠ unavailableMsg :=
  catalog_unavailable_distinct sampleCatalog "quantum" (by decide) (by decide)

/-! ## C10 — categories without an entry table fall back to text_generation -/

/-- C10: whenever classification yields `summarization` or `translation` —
categories with keywords but no entry table — `recommend_models` returns the
`text_generation` table's top 3 entries by descending score (so the result is
never empty), yet every returned recommendation's `use_case` field is the
classified category and its reasoning text names that category. -/
theorem fallback_category_recommendations (s : String)
    (h : analyze_use_case s = "summarization" ∨ analyze_use_case s = "translation") :
    recommend_models s ≠ [] ∧
    (recommend_models s).map (fun r => r.name) =
      ["gpt-4o", "claude-3-sonnet", "llama-3-70b"] ∧
    (recommend_models s).map (fun r => r.score10) = [95, 92, 88] ∧
    (∀ r ∈ recommend_models s, r.use_case = analyze_use_case s ∧
      containsStr r.reasoning (analyze_use_case s) = true) := by
  have he : recommend_models s = recommend_for_category (analyze_use_case s) := rfl
  rcases h with h | h <;> rw [he, h] <;> exact (by decide)

/-- Witness for C10 at "summarize", which classifies as `summarization`. -/
theorem fallback_category_recommendations_witness :
    recommend_models "summarize" ≠ [] ∧
    (recommend_models "summarize").map (fun r => r.name) =
      ["gpt-4o", "claude-3-sonnet", "llama-3-70b"] ∧
    (recommend_models "summarize").map (fun r => r.score10) = [95, 92, 88] ∧
    (∀ r ∈ recommend_models "summarize", r.use_case = analyze_use_case "summarize" ∧
      containsStr r.reasoning (analyze_use_case "summarize") = true) :=
  fallback_category_recommendations "summarize" (Or.inl (by decide))
